import Mathlib

/-!
# Verification of the resilient RPC transport channel pool

Shallow embedding of `src/lib/api/src/grpc/transport_channel_pool.rs`.

Durations are modelled in milliseconds as `Nat`.  A `tonic` transport error is
modelled by its display string.  The asynchronous parts (the three-way
`select!` race inside `_make_request`, and the probe loop of
`check_connectability`) are modelled by oracles: a list of events describing
which branch of each race resolved first and with what value.  The retry loop
of `with_channel_timeout` is then a total function over such an event trace.
-/

namespace TransportChannelPool

/-! ## Constants (from the source, converted to milliseconds) -/

def DEFAULT_GRPC_TIMEOUT : Nat := 60000

def DEFAULT_CONNECT_TIMEOUT : Nat := 2000

def DEFAULT_POOL_SIZE : Nat := 2

def DEFAULT_RETRIES : Nat := 2

def DEFAULT_BACKOFF : Nat := 100

/-- How long to wait for response from server, before checking health of the server. -/
def SMART_CONNECT_INTERVAL : Nat := 1000

/-- Timeout for a single health-check RPC inside the probe. -/
def HEALTH_CHECK_TIMEOUT : Nat := 2000

/-- Try to recreate channel, if there were no successful requests within this time. -/
def CHANNEL_TTL : Nat := 5000

/-- The constant `2^32`; `2u32.pow` in the source wraps modulo this in release builds. -/
def U32_MOD : Nat := 4294967296

/-! ## Error taxonomy -/

/-- A `tonic` transport error, modelled by its display string. -/
abbrev TonicError := String

/-- The 17 gRPC status codes of `tonic::Code`. -/
inductive Code where
  | Ok | Cancelled | Unknown | InvalidArgument | DeadlineExceeded
  | NotFound | AlreadyExists | PermissionDenied | ResourceExhausted
  | FailedPrecondition | Aborted | OutOfRange | Unimplemented
  | Internal | Unavailable | DataLoss | Unauthenticated
  deriving DecidableEq, Repr

/-- Model of `tonic::Status`: a code together with a message. -/
structure Status where
  code : Code
  message : String
  deriving DecidableEq, Repr

def Status.unavailable (msg : String) : Status := ⟨Code.Unavailable, msg⟩

def Status.deadline_exceeded (msg : String) : Status := ⟨Code.DeadlineExceeded, msg⟩

/-- The `enum RetryAction` from the source. -/
inductive RetryAction where
  | Fail (s : Status)
  | RetryOnce (s : Status)
  | RetryWithBackoff (s : Status)
  | RetryImmediately (s : Status)
  deriving DecidableEq, Repr

/-- The `enum HealthCheckError` from the source. -/
inductive HealthCheckError where
  | NoChannel
  | ConnectionError (e : TonicError)
  | RequestError (s : Status)
  deriving DecidableEq, Repr

/-- The `enum RequestFailure` from the source. -/
inductive RequestFailure where
  | HealthCheck (e : HealthCheckError)
  | RequestError (s : Status)
  | RequestConnection (e : TonicError)
  deriving DecidableEq, Repr

/-- The `enum RequestError<Status>` from the source: the caller-visible error of
`with_channel_timeout`. -/
inductive RequestErr where
  | FromClosure (s : Status)
  | Tonic (e : TonicError)
  deriving DecidableEq, Repr

/-! ## The health probe `check_connectability`

Each pass of the probe loop (after its initial `SMART_CONNECT_INTERVAL` sleep)
is described by one `ProbeEvent`: what the pool lookup returned and, if a
channel was obtained, how the health-check RPC raced against the
`HEALTH_CHECK_TIMEOUT` sleep.  `rpcTimeout age` is the branch in which the
sleep won; `age` is `channel.last_success_age()` at that moment. -/

inductive ProbeEvent where
  | poolMissing
  | chooseError (e : TonicError)
  | rpcOk
  | rpcError (s : Status)
  | rpcTimeout (lastSuccessAge : Nat)
  deriving DecidableEq, Repr

/-- The probe `check_connectability` over a probe-event trace.  `none` means the trace
ended with the probe still watching (the real future would keep looping). -/
def check_connectability (uri : String) : List ProbeEvent → Option HealthCheckError
  | [] => none
  | ev :: rest =>
    match ev with
    | .poolMissing => some .NoChannel
    | .chooseError e => some (.ConnectionError e)
    | .rpcOk => check_connectability uri rest
    | .rpcError s => some (.RequestError s)
    | .rpcTimeout age =>
      if age > HEALTH_CHECK_TIMEOUT then
        some (.RequestError (Status.deadline_exceeded
          ("Healthcheck timeout " ++ toString HEALTH_CHECK_TIMEOUT ++ "ms exceeded")))
      else
        check_connectability uri rest

/-! ## A single attempt: `_make_request`

One call of `_make_request` is described by an `AttemptEvent`: either channel
acquisition failed, or one branch of the three-way race (user call, probe,
overall-timeout sleep) resolved first.  For the failing branches the event
carries `channel.last_success_age()` as observed by the post-attempt hygiene
code. -/

inductive AttemptEvent (T : Type) where
  | connFail (e : TonicError)
  | success (v : T)
  | closureErr (s : Status) (age : Nat)
  | healthResult (h : HealthCheckError) (age : Nat)
  | timedOut (age : Nat)
  deriving DecidableEq, Repr

/-- Observable side effects of the pool code, in program order. -/
inductive PoolAction where
  | callF
  | reportSuccess
  | dropChannel
  | releaseChannel
  | sleepBackoff (ms : Nat)
  deriving DecidableEq, Repr

/-- Post-attempt channel hygiene (`_make_request`, after the race): evict the
channel if it has been silent longer than `CHANNEL_TTL`, else just release it. -/
def hygiene (age : Nat) : List PoolAction :=
  if age > CHANNEL_TTL then [PoolAction.dropChannel] else [PoolAction.releaseChannel]

/-- One call of `_make_request`, over one attempt event: the attempt result together with
the ordered list of pool actions it performed. -/
def makeRequest {T : Type} (uri : String) (timeout : Nat) :
    AttemptEvent T → Except RequestFailure T × List PoolAction
  | .connFail e => (.error (.RequestConnection e), [])
  | .success v => (.ok v, [PoolAction.callF, PoolAction.reportSuccess])
  | .closureErr s age => (.error (.RequestError s), PoolAction.callF :: hygiene age)
  | .healthResult h age => (.error (.HealthCheck h), PoolAction.callF :: hygiene age)
  | .timedOut age =>
    (.error (.RequestError (Status.deadline_exceeded
      ("Timeout " ++ toString timeout ++ "ms reached for uri: " ++ uri))),
     PoolAction.callF :: hygiene age)

/-! ## The retry classifier of `with_channel_timeout` (source lines 270–330) -/

def classifyFailure (uri : String) : RequestFailure → RetryAction
  | .HealthCheck .NoChannel =>
    .Fail (Status.unavailable ("Peer " ++ uri ++ " is not available"))
  | .HealthCheck (.ConnectionError e) =>
    .RetryImmediately (Status.unavailable
      ("Failed to connect to " ++ uri ++ ", error: " ++ e))
  | .HealthCheck (.RequestError s) => .RetryWithBackoff s
  | .RequestError s =>
    match s.code with
    | .Cancelled | .Unavailable => .RetryWithBackoff s
    | .Internal => .RetryOnce s
    | _ => .Fail s
  | .RequestConnection e =>
    .RetryWithBackoff (Status.unavailable
      ("Failed to connect to " ++ uri ++ ", error: " ++ e))

/-! ## The retry loop of `with_channel_timeout` -/

/-- Result of a `with_channel_timeout` run over a finite event trace. -/
inductive LoopResult (T : Type) where
  | done (v : T)
  | failed (e : RequestErr)
  | outOfTrace
  deriving DecidableEq, Repr

/-- One pass of the `match action` block (source lines 332–352): either an
early `return` with the error (`Fail`, or a backoff past `max_timeout`), or
the pair of the backoff to sleep, the fallback status, and the (possibly
`RetryOnce`-clamped) `retries_left`.

The backoff is `DEFAULT_BACKOFF * (2 ^ attempt % U32_MOD) + jitter`: the
source computes `2u32.pow(attempt as u32)`, which wraps modulo `2^32` in
release builds (in debug builds it panics once `attempt ≥ 32`). -/
def retryDecision (uri : String) (maxTimeout : Nat) (jitter : Nat → Nat)
    (attempt retries_left : Nat) (failure : RequestFailure) :
    Except Status (Nat × Status × Nat) :=
  match classifyFailure uri failure with
  | .Fail s => .error s
  | .RetryImmediately fb => .ok (0, fb, retries_left)
  | .RetryWithBackoff fb =>
    let backoff := DEFAULT_BACKOFF * (2 ^ attempt % U32_MOD) + jitter attempt
    if backoff > maxTimeout then .error fb else .ok (backoff, fb, retries_left)
  | .RetryOnce fb => .ok (0, fb, min retries_left 1)

/-- The retry loop of `with_channel_timeout`, over a trace of attempt events.
`jitter att` models the fresh `thread_rng().gen_range(0..100)` draw of the
backoff computation at loop-counter value `att` (a distinct independent draw
per pass, since `attempt` increments every pass).  Returns the outcome, the
number of attempts consumed, and the ordered pool-action trace. -/
def withChannelTimeoutLoop {T : Type} (uri : String) (maxTimeout : Nat) (jitter : Nat → Nat) :
    List (AttemptEvent T) → Nat → Nat → LoopResult T × Nat × List PoolAction
  | [], _retries_left, _attempt => (.outOfTrace, 0, [])
  | e :: rest, retries_left, attempt =>
    match (makeRequest uri maxTimeout e).1 with
    | .ok v => (.done v, 1, (makeRequest uri maxTimeout e).2)
    | .error failure =>
      match retryDecision uri maxTimeout jitter attempt retries_left failure with
      | .error s => (.failed (.FromClosure s), 1, (makeRequest uri maxTimeout e).2)
      | .ok (backoff, _fb, rl) =>
        if rl = 0 then (.failed (.FromClosure _fb), 1, (makeRequest uri maxTimeout e).2)
        else
          ((withChannelTimeoutLoop uri maxTimeout jitter rest (rl - 1) (attempt + 1)).1,
           (withChannelTimeoutLoop uri maxTimeout jitter rest (rl - 1) (attempt + 1)).2.1 + 1,
           (makeRequest uri maxTimeout e).2 ++
             PoolAction.sleepBackoff backoff ::
               (withChannelTimeoutLoop uri maxTimeout jitter rest (rl - 1) (attempt + 1)).2.2)

/-- Entry point `with_channel_timeout(uri, f, timeout, retries)`: `retries_left` starts at
`retries`, `attempt` at `0`, and the overall timeout defaults to
`grpc_timeout + connection_timeout`. -/
def with_channel_timeout {T : Type} (uri : String) (jitter : Nat → Nat)
    (events : List (AttemptEvent T)) (timeout : Option Nat) (retries : Nat)
    (grpc_timeout connection_timeout : Nat) :
    LoopResult T × Nat × List PoolAction :=
  let max_timeout := timeout.getD (grpc_timeout + connection_timeout)
  withChannelTimeoutLoop uri max_timeout jitter events retries 0

/-! ## Timed model of the three-way race (for probe non-interference)

`check_connectability`'s first awaited future is `sleep(SMART_CONNECT_INTERVAL)`
(source line 170), so within an attempt the probe's pass `i` issues its
health RPC at absolute time `startᵢ + SMART_CONNECT_INTERVAL`, where
`startᵢ₊₁ = startᵢ + SMART_CONNECT_INTERVAL + dᵢ` and `dᵢ` is the duration of
pass `i`'s post-sleep phase (pool lookup plus raced RPC).  `select!` drops the
losing futures at the first completion, so an RPC is issued only if its issue
time is within the attempt's lifetime. -/

/-- Absolute issue times of the probe's health RPCs, given the durations of
each pass's post-sleep phase, when the probe starts at time `start`. -/
def probeRpcTimesFrom (start : Nat) : List Nat → List Nat
  | [] => []
  | d :: ds =>
    (start + SMART_CONNECT_INTERVAL) ::
      probeRpcTimesFrom (start + SMART_CONNECT_INTERVAL + d) ds

/-- Time at which the attempt's `select!` resolves: the earliest of the user
closure's completion time, the probe's return time (if it ever returns), and
the `max_timeout` sleep. -/
def attemptEndTime (closureTime : Nat) (probeReturnTime : Option Nat)
    (maxTimeout : Nat) : Nat :=
  match probeReturnTime with
  | none => min closureTime maxTimeout
  | some p => min closureTime (min p maxTimeout)

/-- Health RPCs actually issued during the attempt: those whose issue time is
not after the attempt's end (counting even an RPC fired at the very instant
the race resolves). -/
def issuedHealthRpcs (closureTime : Nat) (probeReturnTime : Option Nat)
    (maxTimeout : Nat) (passDurations : List Nat) : List Nat :=
  (probeRpcTimesFrom 0 passDurations).filter
    (fun t => t ≤ attemptEndTime closureTime probeReturnTime maxTimeout)

/-! ## Pool construction and lazy pool initialization -/

/-- The `TransportChannelPool` configuration state (the address map starts empty
and is modelled separately as a lookup function for `init_pool_for_uri`). -/
structure PoolConfig where
  pool_size : Nat
  grpc_timeout : Nat
  connection_timeout : Nat
  has_tls : Bool
  deriving DecidableEq, Repr

/-- Model of `NonZeroUsize::new`: `none` exactly on `0`. -/
def nonZeroUsizeNew (n : Nat) : Option Nat :=
  if n = 0 then none else some n

/-- Constructor `TransportChannelPool::new`: `NonZeroUsize::new(pool_size).unwrap()` panics
on `0`, modelled as `none`. -/
def new (p2p_grpc_timeout connection_timeout pool_size : Nat) (has_tls : Bool) :
    Option PoolConfig :=
  match nonZeroUsizeNew pool_size with
  | none => none
  | some ps => some ⟨ps, p2p_grpc_timeout, connection_timeout, has_tls⟩

/-- Lazy pool initialization `init_pool_for_uri` under the write lock, with the address map modelled as
a lookup function and the two awaited operations (`_init_pool_for_uri`, i.e.
`DynamicChannelPool::new`, and `choose()`) given as oracles.  Returns the
result and the map after the call.  The source propagates either error with
`?` before `guard.insert(uri, channels)` runs. -/
def init_pool_for_uri {P C : Type} (m : String → Option P) (uri : String)
    (initRes : Except TonicError P) (choose : P → Except TonicError C) :
    Except TonicError C × (String → Option P) :=
  match m uri with
  | none =>
    match initRes with
    | .error e => (.error e, m)
    | .ok channels =>
      match choose channels with
      | .error e => (.error e, m)
      | .ok channel => (.ok channel, fun u => if u = uri then some channels else m u)
  | some channels => (choose channels, m)

/-! ## The retry classifier as written in the specification's table (§4.3)

A second definition, transcribed from the spec's words, to be compared with
`classifyFailure` (transcribed from the source). -/

def specRetryClassifier (addr : String) : RequestFailure → RetryAction
  | .HealthCheck .NoChannel =>
    .Fail (Status.unavailable ("Peer " ++ addr ++ " is not available"))
  | .HealthCheck (.ConnectionError e) =>
    .RetryImmediately (Status.unavailable
      ("Failed to connect to " ++ addr ++ ", error: " ++ e))
  | .HealthCheck (.RequestError s) => .RetryWithBackoff s
  | .RequestError s =>
    if s.code = Code.Cancelled ∨ s.code = Code.Unavailable then .RetryWithBackoff s
    else if s.code = Code.Internal then .RetryOnce s
    else .Fail s
  | .RequestConnection e =>
    .RetryWithBackoff (Status.unavailable
      ("Failed to connect to " ++ addr ++ ", error: " ++ e))

/-! ## Helper lemmas -/

theorem hygiene_eq (age : Nat) :
    hygiene age =
      [if age > CHANNEL_TTL then PoolAction.dropChannel else PoolAction.releaseChannel] := by
  unfold hygiene
  split <;> rfl

theorem callF_beq_sleep (b : Nat) :
    (PoolAction.callF == PoolAction.sleepBackoff b) = false := rfl

theorem retryDecision_ok_rl_le (uri : String) (maxT : Nat) (jitter : Nat → Nat)
    (att rl : Nat) (failure : RequestFailure) (b : Nat) (fb : Status) (rl' : Nat)
    (h : retryDecision uri maxT jitter att rl failure = .ok (b, fb, rl')) : rl' ≤ rl := by
  unfold retryDecision at h
  split at h
  · simp at h
  · simp at h
    omega
  · dsimp only at h
    split at h
    · simp at h
    · simp at h
      omega
  · simp at h
    obtain ⟨-, -, h3⟩ := h
    omega

theorem loop_consumed_le {T : Type} (uri : String) (maxT : Nat) (jitter : Nat → Nat) :
    ∀ (events : List (AttemptEvent T)) (rl att : Nat),
      (withChannelTimeoutLoop uri maxT jitter events rl att).2.1 ≤ rl + 1 := by
  intro events
  induction events with
  | nil =>
    intro rl att
    simp [withChannelTimeoutLoop]
  | cons e rest ih =>
    intro rl att
    rw [withChannelTimeoutLoop]
    split
    · simp
    · split
      · simp
      · next b fb rl' heq =>
        split
        · simp
        · have h1 := ih (rl' - 1) (att + 1)
          have h2 := retryDecision_ok_rl_le uri maxT jitter att rl _ b fb rl' heq
          simp only
          omega

theorem loop_trace_head {T : Type} (uri : String) (maxT : Nat) (jitter : Nat → Nat)
    (e : AttemptEvent T) (rest : List (AttemptEvent T)) (rl att : Nat) :
    ∃ tail, (withChannelTimeoutLoop uri maxT jitter (e :: rest) rl att).2.2 =
      (makeRequest uri maxT e).2 ++ tail := by
  rw [withChannelTimeoutLoop]
  split
  · exact ⟨[], by simp⟩
  · split
    · exact ⟨[], by simp⟩
    · split
      · exact ⟨[], by simp⟩
      · exact ⟨_, rfl⟩

theorem count_callF_makeRequest {T : Type} (uri : String) (maxT : Nat)
    (e : AttemptEvent T) :
    ((makeRequest uri maxT e).2.count PoolAction.callF) ≤ 1 := by
  cases e with
  | connFail e => simp [makeRequest]
  | success v => simp [makeRequest]
  | closureErr s age =>
    simp only [makeRequest, hygiene]
    split <;> decide
  | healthResult h age =>
    simp only [makeRequest, hygiene]
    split <;> decide
  | timedOut age =>
    simp only [makeRequest, hygiene]
    split <;> decide

theorem loop_count_callF_le {T : Type} (uri : String) (maxT : Nat) (jitter : Nat → Nat) :
    ∀ (events : List (AttemptEvent T)) (rl att : Nat),
      ((withChannelTimeoutLoop uri maxT jitter events rl att).2.2.count PoolAction.callF) ≤
        (withChannelTimeoutLoop uri maxT jitter events rl att).2.1 := by
  intro events
  induction events with
  | nil =>
    intro rl att
    simp [withChannelTimeoutLoop]
  | cons e rest ih =>
    intro rl att
    have hc := count_callF_makeRequest uri maxT e
    rw [withChannelTimeoutLoop]
    split
    · simpa using hc
    · split
      · simpa using hc
      · next b fb rl' heq =>
        split
        · simpa using hc
        · have h1 := ih (rl' - 1) (att + 1)
          simp [List.count_append, List.count_cons, callF_beq_sleep]
          omega

theorem probeRpcTimesFrom_lower (ds : List Nat) :
    ∀ (s t : Nat), t ∈ probeRpcTimesFrom s ds → s + SMART_CONNECT_INTERVAL ≤ t := by
  induction ds with
  | nil =>
    intro s t h
    simp [probeRpcTimesFrom] at h
  | cons d ds ih =>
    intro s t h
    simp only [probeRpcTimesFrom, List.mem_cons] at h
    rcases h with rfl | h
    · omega
    · have := ih (s + SMART_CONNECT_INTERVAL + d) t h
      omega

/-! ## Claim theorems -/

/-- C1: the retry classifier of `with_channel_timeout` maps every attempt
failure exactly as the spec's table: `HealthCheck(NoChannel)` to `Fail` with
`Status::unavailable("Peer {addr} is not available")`;
`HealthCheck(ConnectionError(e))` to `RetryImmediately` with a
`Status::unavailable` naming the address and error;
`HealthCheck(RequestError(s))` to `RetryWithBackoff(s)`; `RequestError(s)`
with code `Cancelled` or `Unavailable` to `RetryWithBackoff(s)`; with code
`Internal` to `RetryOnce(s)`; with any other code to `Fail(s)`; and
`RequestConnection(e)` to `RetryWithBackoff` with a `Status::unavailable`
naming the address and error. -/
theorem c1_retry_classifier_matches_spec (uri : String) (failure : RequestFailure) :
    classifyFailure uri failure = specRetryClassifier uri failure := by
  rcases failure with h | s | e
  · rcases h with _ | e | s <;> rfl
  · rcases s with ⟨c, m⟩
    cases c <;> rfl
  · rfl

/-- C4: in the health probe `check_connectability`, when the health-check RPC
loses the race against the `HEALTH_CHECK_TIMEOUT` (2 s) sleep, the probe
returns
`RequestError(Status::deadline_exceeded("Healthcheck timeout 2000ms exceeded"))`
exactly when the channel's `last_success_age()` exceeds
`HEALTH_CHECK_TIMEOUT`; otherwise it continues the outer watching loop. -/
theorem c4_healthcheck_timeout_branch (uri : String) (age : Nat)
    (rest : List ProbeEvent) :
    (HEALTH_CHECK_TIMEOUT < age →
      check_connectability uri (ProbeEvent.rpcTimeout age :: rest) =
        some (.RequestError
          (Status.deadline_exceeded "Healthcheck timeout 2000ms exceeded"))) ∧
    (age ≤ HEALTH_CHECK_TIMEOUT →
      check_connectability uri (ProbeEvent.rpcTimeout age :: rest) =
        check_connectability uri rest) := by
  constructor
  · intro h
    simp only [check_connectability, gt_iff_lt, if_pos h]
    rfl
  · intro h
    simp only [check_connectability, gt_iff_lt, if_neg (Nat.not_lt.mpr h)]

theorem c4_healthcheck_timeout_branch_witness :
    (check_connectability "peer" [ProbeEvent.rpcTimeout 3000] =
      some (.RequestError
        (Status.deadline_exceeded "Healthcheck timeout 2000ms exceeded"))) ∧
    (check_connectability "peer" [ProbeEvent.rpcTimeout 1500, ProbeEvent.poolMissing] =
      check_connectability "peer" [ProbeEvent.poolMissing]) :=
  ⟨(c4_healthcheck_timeout_branch "peer" 3000 []).1 (by decide),
   (c4_healthcheck_timeout_branch "peer" 1500 [ProbeEvent.poolMissing]).2 (by decide)⟩

/-- C7: if neither the user call nor the health probe completes within
`max_timeout` (the overall-timeout sleep wins the race), the attempt's result
is `RequestFailure::RequestError` carrying a `Status::deadline_exceeded` whose
message names the `max_timeout` in milliseconds and the peer address; this
synthesized failure then goes through the `RequestError(status)` arm of the
retry classifier (its code `DeadlineExceeded` being none of
`Cancelled`/`Unavailable`/`Internal`, it classifies as `Fail(status)`). -/
theorem c7_timeout_synthesizes_deadline_exceeded (T : Type) (uri : String)
    (maxT age : Nat) :
    (makeRequest (T := T) uri maxT (AttemptEvent.timedOut age)).1 =
      .error (.RequestError (Status.deadline_exceeded
        ("Timeout " ++ toString maxT ++ "ms reached for uri: " ++ uri))) ∧
    classifyFailure uri
        (.RequestError (Status.deadline_exceeded
          ("Timeout " ++ toString maxT ++ "ms reached for uri: " ++ uri))) =
      .Fail (Status.deadline_exceeded
        ("Timeout " ++ toString maxT ++ "ms reached for uri: " ++ uri)) :=
  ⟨rfl, rfl⟩

/-- C9: `TransportChannelPool::new` panics (modelled as `none`) when called
with `pool_size = 0`, because of `NonZeroUsize::new(pool_size).unwrap()`, and
succeeds for every `pool_size ≥ 1`. -/
theorem c9_new_panics_on_zero_pool_size (gt ct : Nat) (tls : Bool) :
    new gt ct 0 tls = none ∧ ∀ n : Nat, 0 < n → (new gt ct n tls).isSome := by
  refine ⟨rfl, fun n hn => ?_⟩
  unfold new nonZeroUsizeNew
  rw [if_neg (Nat.pos_iff_ne_zero.mp hn)]
  rfl

theorem c9_new_panics_on_zero_pool_size_witness :
    new 60000 2000 0 false = none ∧ (new 60000 2000 2 false).isSome :=
  ⟨(c9_new_panics_on_zero_pool_size 60000 2000 false).1,
   (c9_new_panics_on_zero_pool_size 60000 2000 false).2 2 (by decide)⟩

/-- C10: `init_pool_for_uri` is atomic with respect to the address map: for a
fresh address, if the initial connect (`DynamicChannelPool` construction)
fails, or it succeeds but the first `choose()` fails, the error is returned
and the map is left exactly as it was; the pool is inserted only when both
succeed. -/
theorem c10_init_pool_atomic {P C : Type} (m : String → Option P) (uri : String)
    (choose : P → Except TonicError C) (p : P) (e : TonicError) (c : C)
    (hfresh : m uri = none) :
    (init_pool_for_uri m uri (.error e) choose = (.error e, m)) ∧
    (choose p = .error e →
      init_pool_for_uri m uri (.ok p) choose = (.error e, m)) ∧
    (choose p = .ok c →
      init_pool_for_uri m uri (.ok p) choose =
        (.ok c, fun u => if u = uri then some p else m u)) := by
  refine ⟨?_, fun hch => ?_, fun hch => ?_⟩ <;>
    simp only [init_pool_for_uri, hfresh] <;>
    rw [hch]

theorem c10_init_pool_atomic_witness :
    (init_pool_for_uri (P := Nat) (C := Nat) (fun _ => none) "peer"
        (.error "connect refused") (fun p => .ok p) =
      (.error "connect refused", fun _ => none)) ∧
    (init_pool_for_uri (P := Nat) (C := Nat) (fun _ => none) "peer"
        (.ok 7) (fun p => .ok p) =
      (.ok 7, fun u => if u = "peer" then some 7 else none)) :=
  ⟨(c10_init_pool_atomic (fun _ => none) "peer" (fun p => .ok p) 7
      "connect refused" 7 rfl).1,
   (c10_init_pool_atomic (fun _ => none) "peer" (fun p => .ok p) 7
      "connect refused" 7 rfl).2.2 rfl⟩

/-- C2: for every invocation of `with_channel_timeout` with `retries = R`, the
closure `f` is invoked at most `R + 1` times (at most `R + 1` attempts are
consumed, each invoking `f` at most once); moreover, if any attempt is
classified `RetryOnce`, at most one further attempt occurs after it,
regardless of the remaining retry budget, because `retries_left` is clamped
down to 1 before the post-attempt decrement. -/
theorem c2_bounded_attempts {T : Type} (uri : String) (maxT : Nat) (jitter : Nat → Nat) :
    (∀ (events : List (AttemptEvent T)) (R : Nat),
      (withChannelTimeoutLoop uri maxT jitter events R 0).2.1 ≤ R + 1 ∧
      ((withChannelTimeoutLoop uri maxT jitter events R 0).2.2.count PoolAction.callF) ≤
        R + 1) ∧
    (∀ (e : AttemptEvent T) (rest : List (AttemptEvent T)) (rl att : Nat)
        (fl : RequestFailure) (s : Status),
      (makeRequest uri maxT e).1 = .error fl →
      classifyFailure uri fl = .RetryOnce s →
      (withChannelTimeoutLoop uri maxT jitter (e :: rest) rl att).2.1 ≤ 2) := by
  constructor
  · intro events R
    exact ⟨loop_consumed_le uri maxT jitter events R 0,
      le_trans (loop_count_callF_le uri maxT jitter events R 0)
        (loop_consumed_le uri maxT jitter events R 0)⟩
  · intro e rest rl att fl s h1 h2
    rw [withChannelTimeoutLoop, h1]
    simp only [retryDecision, h2]
    cases rl with
    | zero => simp
    | succ n =>
      have hmin : min (n + 1) 1 = 1 := by omega
      rw [hmin]
      simp only [Nat.one_ne_zero, if_false]
      have := loop_consumed_le uri maxT jitter rest 0 (att + 1)
      simp only [Nat.sub_self]
      omega

theorem c2_bounded_attempts_witness :
    ((withChannelTimeoutLoop (T := Nat) "peer" 60000 (fun _ => 0)
        [AttemptEvent.closureErr (Status.unavailable "u") 0] 3 0).2.1 ≤ 4 ∧
      ((withChannelTimeoutLoop (T := Nat) "peer" 60000 (fun _ => 0)
        [AttemptEvent.closureErr (Status.unavailable "u") 0] 3 0).2.2.count
          PoolAction.callF) ≤ 4) ∧
    (withChannelTimeoutLoop (T := Nat) "peer" 60000 (fun _ => 0)
        [AttemptEvent.closureErr ⟨Code.Internal, "broken"⟩ 0,
         AttemptEvent.closureErr ⟨Code.Internal, "broken"⟩ 0,
         AttemptEvent.closureErr ⟨Code.Internal, "broken"⟩ 0] 7 0).2.1 ≤ 2 :=
  ⟨(c2_bounded_attempts "peer" 60000 (fun _ => 0)).1
      [AttemptEvent.closureErr (Status.unavailable "u") 0] 3,
   (c2_bounded_attempts "peer" 60000 (fun _ => 0)).2
      (AttemptEvent.closureErr ⟨Code.Internal, "broken"⟩ 0)
      [AttemptEvent.closureErr ⟨Code.Internal, "broken"⟩ 0,
       AttemptEvent.closureErr ⟨Code.Internal, "broken"⟩ 0] 7 0
      (RequestFailure.RequestError ⟨Code.Internal, "broken"⟩)
      ⟨Code.Internal, "broken"⟩ rfl rfl⟩

/-- C3 (amended): for every attempt classified `RetryWithBackoff` while
`attempt < 32`, the backoff slept before the next attempt equals
`DEFAULT_BACKOFF * 2^attempt` plus the jitter drawn from `[0, 100 ms)`, with
`DEFAULT_BACKOFF = 100 ms` and `attempt` the loop counter (starting at 0 and
incremented after every attempt); if that backoff exceeds `max_timeout`, the
invocation instead returns the fallback status immediately, without sleeping
and without a further attempt, even when retries remain.  (For `attempt ≥ 32`
the source's `2u32.pow(attempt)` wraps modulo `2^32` in release builds, so the
claimed formula fails there; see the counterexample.) -/
theorem c3_backoff_formula_below_32 {T : Type} (uri : String) (maxT : Nat)
    (jitter : Nat → Nat) (e : AttemptEvent T) (rest : List (AttemptEvent T))
    (rl att : Nat) (fl : RequestFailure) (s : Status)
    (h1 : (makeRequest uri maxT e).1 = .error fl)
    (h2 : classifyFailure uri fl = .RetryWithBackoff s)
    (h3 : att < 32) :
    (DEFAULT_BACKOFF * 2 ^ att + jitter att > maxT →
      withChannelTimeoutLoop uri maxT jitter (e :: rest) rl att =
        (.failed (.FromClosure s), 1, (makeRequest uri maxT e).2)) ∧
    (DEFAULT_BACKOFF * 2 ^ att + jitter att ≤ maxT → 0 < rl →
      withChannelTimeoutLoop uri maxT jitter (e :: rest) rl att =
        ((withChannelTimeoutLoop uri maxT jitter rest (rl - 1) (att + 1)).1,
         (withChannelTimeoutLoop uri maxT jitter rest (rl - 1) (att + 1)).2.1 + 1,
         (makeRequest uri maxT e).2 ++
           PoolAction.sleepBackoff (DEFAULT_BACKOFF * 2 ^ att + jitter att) ::
             (withChannelTimeoutLoop uri maxT jitter rest (rl - 1) (att + 1)).2.2)) := by
  have hpow : 2 ^ att % U32_MOD = 2 ^ att := by
    apply Nat.mod_eq_of_lt
    have h32 : 2 ^ att < 2 ^ 32 := Nat.pow_lt_pow_right (by norm_num) h3
    simpa [U32_MOD] using h32
  constructor
  · intro hgt
    rw [withChannelTimeoutLoop, h1]
    simp only [retryDecision, h2, hpow]
    rw [if_pos hgt]
  · intro hle hrl
    rw [withChannelTimeoutLoop, h1]
    simp only [retryDecision, h2, hpow]
    rw [if_neg (by omega)]
    simp only
    rw [if_neg (by omega)]

theorem c3_backoff_formula_below_32_witness :
    (withChannelTimeoutLoop (T := Nat) "peer" 50 (fun _ => 0)
        [AttemptEvent.closureErr (Status.unavailable "u") 0] 2 0 =
      (.failed (.FromClosure (Status.unavailable "u")), 1,
        (makeRequest (T := Nat) "peer" 50
          (AttemptEvent.closureErr (Status.unavailable "u") 0)).2)) ∧
    (withChannelTimeoutLoop (T := Nat) "peer" 60000 (fun _ => 0)
        [AttemptEvent.closureErr (Status.unavailable "u") 0] 2 0 =
      ((withChannelTimeoutLoop (T := Nat) "peer" 60000 (fun _ => 0) [] 1 1).1,
       (withChannelTimeoutLoop (T := Nat) "peer" 60000 (fun _ => 0) [] 1 1).2.1 + 1,
       (makeRequest (T := Nat) "peer" 60000
           (AttemptEvent.closureErr (Status.unavailable "u") 0)).2 ++
         PoolAction.sleepBackoff (DEFAULT_BACKOFF * 2 ^ 0 + 0) ::
           (withChannelTimeoutLoop (T := Nat) "peer" 60000 (fun _ => 0) [] 1 1).2.2)) :=
  ⟨(c3_backoff_formula_below_32 "peer" 50 (fun _ => 0)
      (AttemptEvent.closureErr (Status.unavailable "u") 0) [] 2 0
      (RequestFailure.RequestError (Status.unavailable "u"))
      (Status.unavailable "u") rfl rfl (by decide)).1 (by decide),
   (c3_backoff_formula_below_32 "peer" 60000 (fun _ => 0)
      (AttemptEvent.closureErr (Status.unavailable "u") 0) [] 2 0
      (RequestFailure.RequestError (Status.unavailable "u"))
      (Status.unavailable "u") rfl rfl (by decide)).2 (by decide) (by decide)⟩

/-- C3 counterexample: the claim as stated fails at `attempt = 32`.  After 32
attempts classified `RetryImmediately` (health-probe connection errors), a
33rd attempt fails with `RequestConnection`, classified `RetryWithBackoff`.
The claim's backoff `100 ms * 2^32 ≈ 13.6 years` exceeds `max_timeout = 60 s`,
so the claim mandates returning the fallback status immediately with no
further attempt (33 attempts, a failed result).  The code instead computes
`100 * (2^32 % 2^32) = 0`, sleeps only the jitter, performs a 34th attempt and
returns its success. -/
theorem c3_counterexample_attempt32_wraps :
    classifyFailure "peer" (.RequestConnection "refused") =
      .RetryWithBackoff
        (Status.unavailable "Failed to connect to peer, error: refused") ∧
    (withChannelTimeoutLoop "peer" 60000 (fun _ => 0)
        (List.replicate 32
            (AttemptEvent.healthResult (.ConnectionError "refused") 0) ++
          [AttemptEvent.connFail "refused", AttemptEvent.success (42 : Nat)])
        40 0).1 = LoopResult.done 42 ∧
    (withChannelTimeoutLoop "peer" 60000 (fun _ => 0)
        (List.replicate 32
            (AttemptEvent.healthResult (.ConnectionError "refused") 0) ++
          [AttemptEvent.connFail "refused", AttemptEvent.success (42 : Nat)])
        40 0).2.1 = 34 :=
  ⟨rfl, rfl, rfl⟩

/-- C5: after every non-successful attempt that acquired a channel (closure
status error, health-probe verdict, or overall timeout), the channel disposal
happens as the attempt's very next pool action: `drop_channel` exactly when
`last_success_age() > CHANNEL_TTL`, a plain release otherwise — and it
precedes everything that follows in the invocation's action trace, in
particular any retry backoff sleep. -/
theorem c5_ttl_eviction_before_backoff {T : Type} (uri : String) (maxT : Nat)
    (jitter : Nat → Nat) (rest : List (AttemptEvent T)) (rl att age : Nat)
    (s : Status) (h : HealthCheckError) :
    (∃ tail,
      (withChannelTimeoutLoop uri maxT jitter
          (AttemptEvent.closureErr s age :: rest) rl att).2.2 =
        PoolAction.callF ::
          (if age > CHANNEL_TTL then PoolAction.dropChannel
           else PoolAction.releaseChannel) :: tail) ∧
    (∃ tail,
      (withChannelTimeoutLoop uri maxT jitter
          (AttemptEvent.healthResult h age :: rest) rl att).2.2 =
        PoolAction.callF ::
          (if age > CHANNEL_TTL then PoolAction.dropChannel
           else PoolAction.releaseChannel) :: tail) ∧
    (∃ tail,
      (withChannelTimeoutLoop uri maxT jitter
          (AttemptEvent.timedOut age :: rest) rl att).2.2 =
        PoolAction.callF ::
          (if age > CHANNEL_TTL then PoolAction.dropChannel
           else PoolAction.releaseChannel) :: tail) := by
  refine ⟨?_, ?_, ?_⟩
  · obtain ⟨tail, htr⟩ := loop_trace_head uri maxT jitter
      (AttemptEvent.closureErr s age) rest rl att
    exact ⟨tail, by rw [htr]; simp [makeRequest, hygiene_eq]⟩
  · obtain ⟨tail, htr⟩ := loop_trace_head uri maxT jitter
      (AttemptEvent.healthResult h age) rest rl att
    exact ⟨tail, by rw [htr]; simp [makeRequest, hygiene_eq]⟩
  · obtain ⟨tail, htr⟩ := loop_trace_head uri maxT jitter
      (AttemptEvent.timedOut age) rest rl att
    exact ⟨tail, by rw [htr]; simp [makeRequest, hygiene_eq]⟩

/-- C6: an invocation whose user closure completes (with `Ok` or `Err`) in
strictly less than `SMART_CONNECT_INTERVAL` (1 s) never triggers a health
RPC: the probe branch of the three-way race sleeps for
`SMART_CONNECT_INTERVAL` before its first pool lookup or RPC, so every
potential RPC issue time lies at or after 1 s, past the attempt's end. -/
theorem c6_probe_non_interference (closureTime : Nat) (probeReturnTime : Option Nat)
    (maxTimeout : Nat) (passDurations : List Nat)
    (h : closureTime < SMART_CONNECT_INTERVAL) :
    issuedHealthRpcs closureTime probeReturnTime maxTimeout passDurations = [] := by
  unfold issuedHealthRpcs
  rw [List.filter_eq_nil_iff]
  intro t ht
  have h1 := probeRpcTimesFrom_lower passDurations 0 t ht
  have h2 : attemptEndTime closureTime probeReturnTime maxTimeout ≤ closureTime := by
    cases probeReturnTime <;> (simp only [attemptEndTime]; omega)
  simp only [decide_eq_true_eq]
  omega

theorem c6_probe_non_interference_witness :
    issuedHealthRpcs 50 none 60000 [100, 200] = [] :=
  c6_probe_non_interference 50 none 60000 [100, 200] (by decide)

/-- C8: every error `with_channel_timeout` surfaces to its caller is a
`RequestError::FromClosure(status)` — the closure's last `Status` or a
synthesized `unavailable`/`deadline_exceeded` status; in particular no raw
transport error escapes unwrapped, so the `Tonic` wrapping case is never
exercised by this function. -/
theorem c8_errors_wrapped_from_closure {T : Type} (uri : String) (maxT : Nat)
    (jitter : Nat → Nat) :
    ∀ (events : List (AttemptEvent T)) (rl att : Nat) (e : RequestErr),
      (withChannelTimeoutLoop uri maxT jitter events rl att).1 = .failed e →
      ∃ s, e = RequestErr.FromClosure s := by
  intro events
  induction events with
  | nil =>
    intro rl att e hyp
    simp [withChannelTimeoutLoop] at hyp
  | cons ev rest ih =>
    intro rl att e hyp
    rw [withChannelTimeoutLoop] at hyp
    split at hyp
    · simp at hyp
    · split at hyp
      · next s heq =>
        simp at hyp
        exact ⟨s, hyp.symm⟩
      · next b fb rl' heq =>
        split at hyp
        · simp at hyp
          exact ⟨fb, hyp.symm⟩
        · exact ih (rl' - 1) (att + 1) e (by simpa using hyp)

theorem c8_errors_wrapped_from_closure_witness :
    ∃ s, RequestErr.FromClosure ⟨Code.Internal, "broken"⟩ = RequestErr.FromClosure s :=
  c8_errors_wrapped_from_closure (T := Nat) "peer" 60000 (fun _ => 0)
    [AttemptEvent.closureErr ⟨Code.Internal, "broken"⟩ 0] 0 0
    (RequestErr.FromClosure ⟨Code.Internal, "broken"⟩) (by decide)

end TransportChannelPool
